import Mathlib

/-!
Verification development for the moderation pipeline of the
`ai-content-moderator-backend` repository.

The embedded code is the rich workflow contained in
`src/agent/agent.service.ts`: the `AgentService.runModeration` facade
(lines 12-50), the `buildReasoning` renderer (lines 52-79), and the
six-node LangGraph workflow appended in the same file (lines 81-470):
`analyzeImageNode`, `analyzeTextNode`, `makeDecisionNode`,
`evaluateImageReplacementNode`, `generateImageNode`,
`reanalyzeGeneratedImageNode`, `sanitizePromptForImageGeneration`, and
the `workflow` edge list (a fixed linear order of the six nodes).

Modelling conventions:
* JavaScript optional/undefined fields become `Option`; `??` is
  `Option.getD`, `||` on strings is `jsOr` (empty string counts falsy),
  truthiness of an optional string is `strTruthy`, of an optional
  boolean is `optTruthy`.
* JavaScript numbers are modelled as `ℚ`; all numeric literals in the
  code (0, 0.5, 0.7) and in responses are exactly representable, and no
  claim depends on binary floating-point rounding.
* Each node that calls an external capability is parametrised by the
  observable outcome of that call.  Exceptions that a node lets escape
  (an `await ... .invoke(...)` outside any `try`) are modelled with
  `Except`: `Except.error ()` is an exception propagating out of the
  node; outcomes swallowed by a `try/catch` never produce `.error`.
-/

/-- Truthiness of an optional JS string: `undefined`/`null` and `""` are
falsy, every other string is truthy. -/
def strTruthy : Option String → Bool
  | none => false
  | some s => decide (s ≠ "")

/-- Truthiness of an optional JS boolean: `undefined` counts as `false`. -/
def optTruthy (o : Option Bool) : Bool := o.getD false

/-- JS `a || d` for an optional string `a`: the fallback `d` is used when
`a` is absent or empty (falsy). -/
def jsOr (o : Option String) (d : String) : String :=
  match o with
  | some s => if s = "" then d else s
  | none => d

/-- The `technicalAnalysis` object of the zod `ModerationState`
(agent.service.ts lines 111-119): every field is optional. -/
structure TechnicalAnalysis where
  toxicity : Option ℚ
  nsfw_text : Option Bool
  nsfw_image : Option Bool
  violence : Option Bool
  image_replaced_by_ai : Option Bool
deriving DecidableEq

/-- The `textAnalysis` object of the zod `ModerationState` (lines 120-124). -/
structure TextAnalysisRec where
  summary : Option String
deriving DecidableEq

/-- The zod `ModerationState` threaded through the workflow
(agent.service.ts lines 102-125). -/
structure ModerationState where
  type : Option String
  content : Option String
  imageUrl : Option String
  imageDescription : Option String
  decision : Option String
  reasoning : Option String
  shouldReplaceImage : Bool
  generatedImageUrl : Option String
  technicalAnalysis : Option TechnicalAnalysis
  textAnalysis : Option TextAnalysisRec
deriving DecidableEq

/-- A `technicalAnalysis` object with every field absent, i.e. the JS
object literal produced by `state.technicalAnalysis || \x7b\x7d`. -/
def taDefault : TechnicalAnalysis := ⟨none, none, none, none, none⟩

/-! ### Capability outcomes

Each constructor records one observable behaviour of an external call
(or of the JSON extraction applied to its response). -/

/-- Outcome of the vision call in `analyzeImageNode`: the whole body is
inside `try`, so a throw is observed as `fail`. -/
inductive ImgCapOutcome
  | fail
  | ok (description : String)
deriving DecidableEq

/-- The toxicity field of the JSON object parsed in `analyzeTextNode`:
absent, a number, or present with a non-number value. -/
inductive JsNumField
  | absent
  | num (q : ℚ)
  | nonNum
deriving DecidableEq

/-- The JSON object parsed from the text-analysis response
(`parsed` in agent.service.ts lines 210-223).  `nsfw_text` stores the
truthiness of the field (the code applies `Boolean(...)`), and
`summary` is `none` when the field is absent or falsy. -/
structure TextParsed where
  toxicity : JsNumField
  nsfw_text : Bool
  summary : Option String
deriving DecidableEq

/-- Outcome of the `openai.invoke` call plus JSON extraction in
`analyzeTextNode`.  The invoke itself is *not* inside the `try`
(lines 207-208), so a transport failure is a distinct outcome
`throwErr`; only the parse is guarded.  `nullDoc` is a response whose
extracted JSON document is the literal `null` (a raw response `"null"`
with no `\x7b...\x7d` region): `JSON.parse` succeeds inside the `try`,
and the later property access `parsed.summary` (line 228) throws a
`TypeError` outside it.  Every other non-object document (a number,
string, boolean or array) tolerates property access, yielding
`undefined` fields, and is covered by `parsed` with absent/falsy
fields. -/
inductive TextCapOutcome
  | throwErr
  | nullDoc
  | parseFail
  | parsed (p : TextParsed)
deriving DecidableEq

/-- The `technicalAnalysis` sub-object of the decision response; the
code reads the two fields through `Boolean(...)`. -/
structure DecTech where
  nsfw_image : Bool
  violence : Bool
deriving DecidableEq

/-- The JSON object parsed from the decision response (`parsed` in
agent.service.ts lines 282-298).  `decision`/`summary` are `none` when
absent or falsy (the code applies `|| fallback`). -/
structure DecParsed where
  decision : Option String
  summary : Option String
  technicalAnalysis : Option DecTech
deriving DecidableEq

/-- Outcome of the `openai.invoke` call plus JSON extraction in
`makeDecisionNode`; as in the text node, the invoke is outside the
`try` (line 279), and a response whose extracted JSON document is
`null` (`nullDoc`) parses successfully but makes the later
`parsed.technicalAnalysis` access (line 300) throw outside the `try`.
Other non-object documents yield `undefined` fields and are covered by
`parsed` with absent/falsy fields. -/
inductive DecCapOutcome
  | throwErr
  | nullDoc
  | parseFail
  | parsed (p : DecParsed)
deriving DecidableEq

/-- Outcome of the image-generation HTTP call in `generateImageNode`;
the whole body is inside `try`. -/
inductive GenCapOutcome
  | fail
  | ok (url : String)
deriving DecidableEq

/-- Outcome of the re-analysis vision call in
`reanalyzeGeneratedImageNode`; the whole body is inside `try`. -/
inductive ReCapOutcome
  | fail
  | ok (analysisText : String)
deriving DecidableEq

/-- One behaviour of the external world for a whole pipeline run: the
outcome each capability call would produce if reached. -/
structure CapBehavior where
  imageAnalysis : ImgCapOutcome
  textAnalysis : TextCapOutcome
  decision : DecCapOutcome
  imageGeneration : GenCapOutcome
  reanalysis : ReCapOutcome
deriving DecidableEq

/-! ### The pipeline nodes (agent.service.ts lines 139-453) -/

/-- `analyzeImageNode` (lines 139-178): no-op without an image URL;
otherwise fills `imageDescription`, falling back to the sentinel
`"Image analysis failed"` when the download or the vision call throws
(everything is inside the `try`). -/
def analyzeImageNode (state : ModerationState) (o : ImgCapOutcome) : ModerationState :=
  if strTruthy state.imageUrl then
    match o with
    | .ok d => { state with imageDescription := some d }
    | .fail => { state with imageDescription := some "Image analysis failed" }
  else state

/-- The fallback `parsed` object assigned in the catch block of
`analyzeTextNode` (lines 218-222). -/
def textFallbackParsed : TextParsed :=
  { toxicity := .num (mkRat 1 2), nsfw_text := false, summary := some "Text analysis error" }

/-- The merge performed by the `return` of `analyzeTextNode`
(lines 225-235): `textAnalysis` is rebuilt, `technicalAnalysis` spreads
the existing object and overrides `toxicity` (the parsed value if it is
a number, else 0.5 — no clamping) and `nsfw_text`. -/
def analyzeTextMerge (state : ModerationState) (parsed : TextParsed) : ModerationState :=
  { state with
      textAnalysis := some { summary := some (jsOr parsed.summary "No summary") }
      technicalAnalysis := some
        { (state.technicalAnalysis.getD taDefault) with
            toxicity := some (match parsed.toxicity with | .num q => q | _ => mkRat 1 2)
            nsfw_text := some parsed.nsfw_text } }

/-- `analyzeTextNode` (lines 180-236): no-op when `content` is falsy;
the `openai.invoke` is outside the `try`, so its throw propagates
(`Except.error`); a response parsing to the JSON document `null`
survives the guarded parse and then throws at `parsed.summary`
(line 228), also outside the `try`, so it propagates too; a parse
failure substitutes `textFallbackParsed` and continues into the same
merge. -/
def analyzeTextNode (state : ModerationState) (o : TextCapOutcome) : Except Unit ModerationState :=
  if strTruthy state.content then
    match o with
    | .throwErr => .error ()
    | .nullDoc => .error ()
    | .parseFail => .ok (analyzeTextMerge state textFallbackParsed)
    | .parsed p => .ok (analyzeTextMerge state p)
  else .ok state

/-- The fallback `parsed` object assigned in the catch block of
`makeDecisionNode` (lines 290-297). -/
def decisionFallbackParsed : DecParsed :=
  { decision := some "flagged", summary := some "Moderation error occurred"
    technicalAnalysis := some { nsfw_image := false, violence := false } }

/-- The merge performed by the `return` of `makeDecisionNode`
(lines 300-317): `technicalAnalysis` is rebuilt from scratch (no
spread), taking `toxicity`/`nsfw_text` from the previous state with
`?? 0.5` / `?? false` fallbacks and the image flags from the parsed
response; note the rebuilt object has no `image_replaced_by_ai` key. -/
def makeDecisionMerge (state : ModerationState) (parsed : DecParsed) : ModerationState :=
  let techAnalysis := parsed.technicalAnalysis.getD { nsfw_image := false, violence := false }
  { state with
      decision := some (jsOr parsed.decision "flagged")
      textAnalysis := some { summary := some (jsOr parsed.summary "No summary provided") }
      technicalAnalysis := some
        { toxicity := some ((state.technicalAnalysis.bind fun ta => ta.toxicity).getD (mkRat 1 2))
          nsfw_text := some ((state.technicalAnalysis.bind fun ta => ta.nsfw_text).getD false)
          nsfw_image := some techAnalysis.nsfw_image
          violence := some techAnalysis.violence
          image_replaced_by_ai := none } }

/-- `makeDecisionNode` (lines 238-318): always runs; the
`openai.invoke` is outside the `try`, so its throw propagates; a
response parsing to the JSON document `null` throws at
`parsed.technicalAnalysis` (line 300) outside the `try` and propagates
too; a parse failure substitutes `decisionFallbackParsed` and
continues into the same merge. -/
def makeDecisionNode (state : ModerationState) (o : DecCapOutcome) : Except Unit ModerationState :=
  match o with
  | .throwErr => .error ()
  | .nullDoc => .error ()
  | .parseFail => .ok (makeDecisionMerge state decisionFallbackParsed)
  | .parsed p => .ok (makeDecisionMerge state p)

/-- `evaluateImageReplacementNode` (lines 320-342): no-op without an
image URL; otherwise plans a replacement exactly when an image issue is
flagged and the text toxicity (defaulting to 0) is below 0.7. -/
def evaluateImageReplacementNode (state : ModerationState) : ModerationState :=
  if strTruthy state.imageUrl then
    let hasImageIssues :=
      optTruthy (state.technicalAnalysis.bind fun ta => ta.nsfw_image) ||
      optTruthy (state.technicalAnalysis.bind fun ta => ta.violence)
    let textToxicity := (state.technicalAnalysis.bind fun ta => ta.toxicity).getD 0
    if hasImageIssues && decide (textToxicity < mkRat 7 10) then
      { state with shouldReplaceImage := true }
    else
      { state with shouldReplaceImage := false }
  else state

/-- `generateImageNode` (lines 344-384): no-op unless a replacement is
planned and text content is present; the whole generation call is
inside `try`, and the catch resets `shouldReplaceImage` and clears
`generatedImageUrl`, leaving every other field untouched. -/
def generateImageNode (state : ModerationState) (o : GenCapOutcome) : ModerationState :=
  if !state.shouldReplaceImage || !strTruthy state.content then state
  else
    match o with
    | .ok url => { state with generatedImageUrl := some url }
    | .fail => { state with shouldReplaceImage := false, generatedImageUrl := none }

/-- Substring matching at the head of a character list. -/
def matchesAt : List Char → List Char → Bool
  | [], _ => true
  | _ :: _, [] => false
  | p :: ps, c :: cs => (p == c) && matchesAt ps cs

/-- Substring search on character lists (JS `String.includes`). -/
def hasSub (l pat : List Char) : Bool :=
  match l with
  | [] => pat.isEmpty
  | _ :: t => matchesAt pat l || hasSub t pat

/-- JS `haystack.includes(needle)`. -/
def jsIncludes (s pat : String) : Bool := hasSub s.toList pat.toList

/-- JS `toLowerCase` (ASCII range, which covers the markers searched). -/
def jsToLower (s : String) : String := String.mk (s.toList.map Char.toLower)

/-- The `isSafe` test of `reanalyzeGeneratedImageNode` (lines 414-417):
the lowercased re-analysis text contains none of the literal markers
`"nsfw"`, `"violence"`, `"harmful"`. -/
def reanalysisIsSafe (analysisText : String) : Bool :=
  !(jsIncludes (jsToLower analysisText) "nsfw") &&
  !(jsIncludes (jsToLower analysisText) "violence") &&
  !(jsIncludes (jsToLower analysisText) "harmful")

/-- `reanalyzeGeneratedImageNode` (lines 386-444): no-op unless a
generated image exists and a replacement is still planned; on a safe
re-analysis it marks `image_replaced_by_ai` and clears the image flags
(spreading the existing `technicalAnalysis`); on an unsafe re-analysis
or a thrown call (both inside `try`) it discards the generated image. -/
def reanalyzeGeneratedImageNode (state : ModerationState) (o : ReCapOutcome) : ModerationState :=
  if !strTruthy state.generatedImageUrl || !state.shouldReplaceImage then state
  else
    match o with
    | .ok analysisText =>
      if reanalysisIsSafe analysisText then
        { state with
            technicalAnalysis := some
              { (state.technicalAnalysis.getD taDefault) with
                  nsfw_image := some false
                  violence := some false
                  image_replaced_by_ai := some true } }
      else
        { state with shouldReplaceImage := false, generatedImageUrl := none }
    | .fail => { state with shouldReplaceImage := false, generatedImageUrl := none }

/-! ### Prompt sanitization (lines 446-453) -/

/-- ASCII alphanumeric test — the characters kept by the regex class
`[^a-zA-Z0-9\s]` apart from whitespace. -/
def isAsciiAlnum (c : Char) : Bool :=
  (97 ≤ c.toNat && c.toNat ≤ 122) || (65 ≤ c.toNat && c.toNat ≤ 90) ||
  (48 ≤ c.toNat && c.toNat ≤ 57)

/-- The JS `\s` character class (also the set removed by `trim`). -/
def jsWhitespaceChar (c : Char) : Bool :=
  c.toNat == 32 || c.toNat == 9 || c.toNat == 10 || c.toNat == 11 ||
  c.toNat == 12 || c.toNat == 13 || c.toNat == 160 || c.toNat == 5760 ||
  (8192 ≤ c.toNat && c.toNat ≤ 8202) || c.toNat == 8232 || c.toNat == 8233 ||
  c.toNat == 8239 || c.toNat == 8287 || c.toNat == 12288 || c.toNat == 65279

/-- A character surviving the regex `replace(/[^a-zA-Z0-9\s]/g, '')`. -/
def keepChar (c : Char) : Bool := isAsciiAlnum c || jsWhitespaceChar c

/-- JS `trim`: drop whitespace from both ends. -/
def jsTrim (l : List Char) : List Char :=
  ((l.dropWhile jsWhitespaceChar).reverse.dropWhile jsWhitespaceChar).reverse

/-- The `cleaned` value of `sanitizePromptForImageGeneration`
(lines 447-450): strip, truncate to 300, trim. -/
def cleanedOf (text : String) : String :=
  String.mk (jsTrim ((text.toList.filter keepChar).take 300))

/-- The fixed safety-framing template (line 452). -/
def promptTemplate (fragment : String) : String :=
  "A professional, family-friendly illustration based on: \"" ++ fragment ++
  "\". Safe for all ages."

/-- `sanitizePromptForImageGeneration` (lines 446-453). -/
def sanitizePromptForImageGeneration (text : String) : String :=
  promptTemplate (cleanedOf text)

/-! ### The reasoning renderer and the facade (lines 12-79) -/

/-- ECMAScript `(t * 100).toFixed(1)` for a non-negative toxicity `t`
(the expression pushed by `buildReasoning`, line 56).  `toFixed(1)`
picks the integer `n` closest to `value * 10`, ties going to the larger
`n`, i.e. `n = ⌊t*1000 + 1/2⌋`; writing `t = t.num / t.den` this is
`(2000*t.num + t.den) / (2000 * t.den) * 1000` collapsed to the integer
division `(2000*t.num + t.den) / (2*t.den)`, computed here on `ℕ`. -/
def jsPercent1Core (t : ℚ) : String :=
  let n : ℕ := (2000 * t.num + (t.den : ℤ)).toNat / (2 * t.den)
  toString (n / 10) ++ "." ++ toString (n % 10)

/-- ECMAScript `(t * 100).toFixed(1)`: a negative value formats its
magnitude behind a leading minus sign. -/
def jsPercent1 (t : ℚ) : String :=
  if t.num < 0 then "-" ++ jsPercent1Core (-t) else jsPercent1Core t

/-- The status-to-header ternary of `buildReasoning` (lines 71-76). -/
def headerFor (status : String) : String :=
  if status = "approved" then "Content approved:"
  else if status = "flagged" then "Content flagged for review:"
  else "Content rejected:"

/-- `AgentService.buildReasoning` (lines 52-79): pushes the toxicity
percentage whenever `toxicity !== undefined` and one fixed string per
truthy flag, then joins them after the status header (header alone when
no part was pushed). -/
def buildReasoning (status : String) (analysis : TechnicalAnalysis) : String :=
  let parts : List String :=
    (match analysis.toxicity with
      | some t => ["Toxicity: " ++ jsPercent1 t ++ "%"]
      | none => []) ++
    (if optTruthy analysis.nsfw_text then ["NSFW text detected"] else []) ++
    (if optTruthy analysis.nsfw_image then ["NSFW image detected"] else []) ++
    (if optTruthy analysis.violence then ["Violence detected"] else [])
  if parts.length > 0 then
    headerFor status ++ (" " ++ String.intercalate ", " parts)
  else headerFor status

/-- The fixed node order of the compiled workflow (lines 455-470):
image analysis, text analysis, decision, replacement evaluation,
generation, re-analysis.  An exception escaping a node (`Except.error`)
aborts the run and rejects the `invoke` promise. -/
def runPipeline (init : ModerationState) (cap : CapBehavior) : Except Unit ModerationState :=
  match analyzeTextNode (analyzeImageNode init cap.imageAnalysis) cap.textAnalysis with
  | .error e => .error e
  | .ok s2 =>
    match makeDecisionNode s2 cap.decision with
    | .error e => .error e
    | .ok s3 =>
      .ok (reanalyzeGeneratedImageNode
        (generateImageNode (evaluateImageReplacementNode s3) cap.imageGeneration)
        cap.reanalysis)

/-- The columns of a fetched submission row that `runModeration` reads. -/
structure SubmissionRow where
  type : Option String
  content : Option String
  image_url : Option String
deriving DecidableEq

/-- The initial graph state built from the fetched row
(agent.service.ts lines 21-28) together with the zod channel defaults
(`decision` defaults to `"approved"`, `shouldReplaceImage` to `false`):
`content` is `row.content ?? ''` and `imageUrl` is set only when
`row.image_url` is truthy. -/
def initState (row : SubmissionRow) : ModerationState :=
  { type := row.type
    content := some (row.content.getD "")
    imageUrl := if strTruthy row.image_url then row.image_url else none
    imageDescription := none
    decision := some "approved"
    reasoning := none
    shouldReplaceImage := false
    generatedImageUrl := none
    technicalAnalysis := none
    textAnalysis := none }

/-- The object returned by `runModeration` (lines 44-49). -/
structure ModerationResult where
  status : String
  summary : String
  reasoning : String
  technicalAnalysis : TechnicalAnalysis
deriving DecidableEq

/-- The result assembly of `runModeration` (lines 33-49): status is
`finalState.decision ?? 'approved'`, summary is
`finalState.textAnalysis?.summary ?? 'No summary provided'`, the
technical analysis falls back to an all-clear object, and the reasoning
is rendered from the chosen status and that analysis. -/
def assembleResult (finalState : ModerationState) : ModerationResult :=
  let status := finalState.decision.getD "approved"
  let technicalAnalysis :=
    finalState.technicalAnalysis.getD
      { toxicity := some 0, nsfw_text := some false, nsfw_image := some false
        violence := some false, image_replaced_by_ai := none }
  { status := status
    summary := (finalState.textAnalysis.bind fun ta => ta.summary).getD "No summary provided"
    reasoning := buildReasoning status technicalAnalysis
    technicalAnalysis := technicalAnalysis }

/-- `AgentService.runModeration` for a fetched row (lines 12-50): drive
the workflow, then assemble the result object.  A rejection of
`moderationAgent.invoke` is not caught and propagates to the caller. -/
def runModeration (row : SubmissionRow) (cap : CapBehavior) : Except Unit ModerationResult :=
  (runPipeline (initState row) cap).map assembleResult

/-- Sample values pinning down the percentage renderer: `toFixed(1)` of
`t*100` for a few toxicity values, including a round-half-up tie. -/
theorem jsPercent1_samples :
    jsPercent1 (mkRat 1 5) = "20.0" ∧ jsPercent1 (mkRat 1 2) = "50.0" ∧
    jsPercent1 0 = "0.0" ∧ jsPercent1 5 = "500.0" ∧
    jsPercent1 (mkRat 123 1000) = "12.3" ∧ jsPercent1 (mkRat 1250 100000) = "1.3" :=
  ⟨by decide, by decide, by decide, by decide, by decide, by decide⟩

/-! ### Claim-side (specification) definitions -/

/-- The list of triggered findings as the specification words them for
the reasoning string, restricted to the findings the code actually
renders: toxicity percentage (whenever the field is defined), NSFW
text, NSFW image, violence — each present exactly when its value is
truthy/defined. -/
def findingsOf (analysis : TechnicalAnalysis) : List String :=
  List.filterMap (fun f => f analysis)
    [fun a => a.toxicity.map (fun t => "Toxicity: " ++ jsPercent1 t ++ "%"),
     fun a => if optTruthy a.nsfw_text then some "NSFW text detected" else none,
     fun a => if optTruthy a.nsfw_image then some "NSFW image detected" else none,
     fun a => if optTruthy a.violence then some "Violence detected" else none]

/-- The claim's wording of a re-analysis description that names an
unsafe category: a case-insensitive textual marker of NSFW, violence or
harm, where the markers searched by the code are the literal substrings
`"nsfw"`, `"violence"` and `"harmful"`. -/
def mentionsUnsafeMarker (txt : String) : Bool :=
  jsIncludes (jsToLower txt) "nsfw" || jsIncludes (jsToLower txt) "violence" ||
  jsIncludes (jsToLower txt) "harmful"

/-- The sanitizer exactly as the claim words it — the template applied
to the input after stripping and truncating only, with no trimming of
surrounding whitespace. -/
def claimSanitizeNoTrim (text : String) : String :=
  promptTemplate (String.mk ((text.toList.filter keepChar).take 300))

/-! ### Claim theorems -/

/-- C4: the replacement-evaluation step is a no-op when `imageUrl` is
absent, and otherwise sets `shouldReplaceImage` to `true` exactly when
an image issue (`nsfw_image` or `violence`) is flagged and the toxicity
(defaulting to 0) is below 0.7, to `false` in every other case, leaving
every other field unchanged. -/
theorem c4_replacement_evaluation (s : ModerationState) :
    evaluateImageReplacementNode s =
      if strTruthy s.imageUrl then
        { s with shouldReplaceImage :=
            (optTruthy (s.technicalAnalysis.bind fun ta => ta.nsfw_image) ||
             optTruthy (s.technicalAnalysis.bind fun ta => ta.violence)) &&
            decide (((s.technicalAnalysis.bind fun ta => ta.toxicity).getD 0) < mkRat 7 10) }
      else s := by
  unfold evaluateImageReplacementNode
  cases hio : strTruthy s.imageUrl <;> simp only [hio, Bool.false_eq_true, if_false, if_true]
  cases hc : (optTruthy (s.technicalAnalysis.bind fun ta => ta.nsfw_image) ||
      optTruthy (s.technicalAnalysis.bind fun ta => ta.violence)) &&
      decide (((s.technicalAnalysis.bind fun ta => ta.toxicity).getD 0) < mkRat 7 10) <;>
    simp [hc]

/-- C4 witness: a concrete record with an image, a flagged image issue
and toxicity 0.2 gets `shouldReplaceImage = true`. -/
theorem c4_replacement_evaluation_witness :
    evaluateImageReplacementNode
        { type := some "image", content := some "hi", imageUrl := some "https://i/x.png"
          imageDescription := none, decision := some "flagged", reasoning := none
          shouldReplaceImage := false, generatedImageUrl := none
          technicalAnalysis := some ⟨some (mkRat 1 5), some false, some true, some false, none⟩
          textAnalysis := none } =
      { type := some "image", content := some "hi", imageUrl := some "https://i/x.png"
        imageDescription := none, decision := some "flagged", reasoning := none
        shouldReplaceImage := true, generatedImageUrl := none
        technicalAnalysis := some ⟨some (mkRat 1 5), some false, some true, some false, none⟩
        textAnalysis := none } := by
  rw [c4_replacement_evaluation]
  decide

/-- The concrete record used to witness C5. -/
def c5state : ModerationState :=
  { type := some "image", content := some "a cat", imageUrl := some "https://i/orig.png"
    imageDescription := some "d", decision := some "rejected", reasoning := none
    shouldReplaceImage := true, generatedImageUrl := none
    technicalAnalysis := some ⟨some (mkRat 1 5), some false, some true, some false, none⟩
    textAnalysis := some ⟨some "s"⟩ }

/-- C5: when a replacement is planned and text is present, a failed
image-generation call resets `shouldReplaceImage` and clears
`generatedImageUrl`, leaving every other field — in particular
`decision` — unchanged. -/
theorem c5_generation_failure_resets_only_replacement_fields (s : ModerationState)
    (h1 : s.shouldReplaceImage = true) (h2 : strTruthy s.content = true) :
    generateImageNode s .fail =
      { s with shouldReplaceImage := false, generatedImageUrl := none } := by
  unfold generateImageNode
  rw [h1, h2]
  simp

/-- C5 witness: the generic failure theorem applied at a concrete
record whose decision is `"rejected"`. -/
theorem c5_generation_failure_witness :
    c5state.shouldReplaceImage = true ∧ strTruthy c5state.content = true ∧
    generateImageNode c5state .fail =
      { c5state with shouldReplaceImage := false, generatedImageUrl := none } :=
  ⟨rfl, by decide,
    c5_generation_failure_resets_only_replacement_fields c5state rfl (by decide)⟩

/-- C3 (failing input for the claimed clamping): a well-formed upstream
response whose numeric toxicity is 5 is stored verbatim by the
text-analysis step — the stored value lies outside `[0,1]`. -/
theorem c3_toxicity_not_clamped :
    analyzeTextNode
        { type := some "text", content := some "hello", imageUrl := none
          imageDescription := none, decision := some "approved", reasoning := none
          shouldReplaceImage := false, generatedImageUrl := none
          technicalAnalysis := none, textAnalysis := none }
        (.parsed { toxicity := .num 5, nsfw_text := false, summary := some "ok" }) =
      Except.ok
        { type := some "text", content := some "hello", imageUrl := none
          imageDescription := none, decision := some "approved", reasoning := none
          shouldReplaceImage := false, generatedImageUrl := none
          technicalAnalysis := some ⟨some 5, some false, none, none, none⟩
          textAnalysis := some ⟨some "ok"⟩ } ∧
    ¬((5 : ℚ) ≤ 1) :=
  ⟨rfl, by decide⟩

/-- C10: for every status other than `"approved"` and `"flagged"` the
reasoning string is rendered with the `"Content rejected:"` header,
identically to the `"rejected"` status. -/
theorem c10_unknown_status_rendered_as_rejected (status : String)
    (analysis : TechnicalAnalysis)
    (h1 : status ≠ "approved") (h2 : status ≠ "flagged") :
    headerFor status = "Content rejected:" ∧
    buildReasoning status analysis = buildReasoning "rejected" analysis := by
  constructor
  · simp [headerFor, h1, h2]
  · simp [buildReasoning, headerFor, h1, h2]

/-- C10 witness: the out-of-enum status `"banana"` renders with the
rejected header. -/
theorem c10_unknown_status_witness :
    ("banana" : String) ≠ "approved" ∧ ("banana" : String) ≠ "flagged" ∧
    (headerFor "banana" = "Content rejected:" ∧
     buildReasoning "banana" taDefault = buildReasoning "rejected" taDefault) :=
  ⟨by decide, by decide,
    c10_unknown_status_rendered_as_rejected "banana" taDefault (by decide) (by decide)⟩

/-- C6 (amended): the reasoning string is the status header followed by
the comma-joined triggered findings — toxicity percentage, NSFW text,
NSFW image, violence — and the header alone, with no trailing
separator, when no finding qualifies.  (The code renders no
image-replaced finding.) -/
theorem c6_reasoning_header_and_findings (status : String) (analysis : TechnicalAnalysis) :
    buildReasoning status analysis =
      if findingsOf analysis = [] then headerFor status
      else headerFor status ++ (" " ++ String.intercalate ", " (findingsOf analysis)) := by
  rcases analysis with ⟨tox, nt, ni, vi, ir⟩
  cases tox <;> cases hnt : optTruthy nt <;> cases hni : optTruthy ni <;>
    cases hvi : optTruthy vi <;>
      simp [buildReasoning, findingsOf, hnt, hni, hvi, List.filterMap]

/-- C6 counterexample: with `image_replaced_by_ai` truthy and no other
finding, the output is the bare header — no image-replaced finding is
ever rendered, contradicting the claimed finding list. -/
theorem c6_no_image_replaced_finding :
    buildReasoning "approved"
        ⟨none, some false, some false, some false, some true⟩ = "Content approved:" ∧
    (⟨none, some false, some false, some false, some true⟩ :
        TechnicalAnalysis).image_replaced_by_ai = some true :=
  ⟨by decide, rfl⟩

/-- C7: when a generated image exists and a replacement is planned, the
re-analysis step discards the generated image (resetting
`shouldReplaceImage` and `generatedImageUrl`) exactly when the
re-analysis description contains a case-insensitive unsafe marker, and
otherwise marks `image_replaced_by_ai` and clears the two image flags,
all other fields unchanged in both cases. -/
theorem c7_reanalysis_behaviour (s : ModerationState) (txt : String)
    (h1 : strTruthy s.generatedImageUrl = true) (h2 : s.shouldReplaceImage = true) :
    reanalyzeGeneratedImageNode s (.ok txt) =
      if mentionsUnsafeMarker txt then
        { s with shouldReplaceImage := false, generatedImageUrl := none }
      else
        { s with
            technicalAnalysis := some
              { (s.technicalAnalysis.getD taDefault) with
                  nsfw_image := some false
                  violence := some false
                  image_replaced_by_ai := some true } } := by
  have hsafe : reanalysisIsSafe txt = !mentionsUnsafeMarker txt := by
    simp [reanalysisIsSafe, mentionsUnsafeMarker]
  unfold reanalyzeGeneratedImageNode
  rw [h1, h2]
  cases hm : mentionsUnsafeMarker txt <;> simp [hsafe, hm]

/-- The concrete record used to witness C7. -/
def c7state : ModerationState :=
  { type := some "image", content := some "a cat", imageUrl := some "https://i/orig.png"
    imageDescription := some "d", decision := some "flagged", reasoning := none
    shouldReplaceImage := true, generatedImageUrl := some "https://gen/y.png"
    technicalAnalysis := some ⟨some (mkRat 1 5), some false, some true, some false, none⟩
    textAnalysis := some ⟨some "s"⟩ }

/-- C7 witness: re-analysis of a safe description at a concrete record. -/
theorem c7_reanalysis_witness :
    strTruthy c7state.generatedImageUrl = true ∧ c7state.shouldReplaceImage = true ∧
    reanalyzeGeneratedImageNode c7state (.ok "A calm scene") =
      (if mentionsUnsafeMarker "A calm scene" then
        { c7state with shouldReplaceImage := false, generatedImageUrl := none }
      else
        { c7state with
            technicalAnalysis := some
              { (c7state.technicalAnalysis.getD taDefault) with
                  nsfw_image := some false
                  violence := some false
                  image_replaced_by_ai := some true } }) :=
  ⟨by decide, rfl, c7_reanalysis_behaviour c7state "A calm scene" (by decide) rfl⟩

/-- C8 counterexample: on an input with trailing whitespace the
sanitizer differs from the claim's strip-then-truncate description,
because the code additionally trims the fragment. -/
theorem c8_trim_divergence :
    sanitizePromptForImageGeneration "hi " ≠ claimSanitizeNoTrim "hi " := by decide

/-- Characters surviving `jsTrim` come from the original list. -/
theorem mem_of_mem_jsTrim {c : Char} {l : List Char} (h : c ∈ jsTrim l) : c ∈ l := by
  unfold jsTrim at h
  rw [List.mem_reverse] at h
  have h2 : c ∈ (l.dropWhile jsWhitespaceChar).reverse :=
    (List.dropWhile_sublist _).subset h
  rw [List.mem_reverse] at h2
  exact (List.dropWhile_sublist _).subset h2

/-- `jsTrim` never lengthens a list. -/
theorem jsTrim_length_le (l : List Char) : (jsTrim l).length ≤ l.length := by
  unfold jsTrim
  rw [List.length_reverse]
  calc ((l.dropWhile jsWhitespaceChar).reverse.dropWhile jsWhitespaceChar).length
      ≤ (l.dropWhile jsWhitespaceChar).reverse.length :=
        (List.dropWhile_sublist _).length_le
    _ = (l.dropWhile jsWhitespaceChar).length := List.length_reverse _
    _ ≤ l.length := (List.dropWhile_sublist _).length_le

/-- C8 (amended): the sanitizer is the fixed template around the input
stripped of every non-alphanumeric, non-whitespace character, truncated
to 300 characters and trimmed of surrounding whitespace; the embedded
fragment contains only kept characters and never exceeds 300. -/
theorem c8_sanitizer_shape (text : String) :
    sanitizePromptForImageGeneration text = promptTemplate (cleanedOf text) ∧
    (cleanedOf text).toList.all keepChar = true ∧
    (cleanedOf text).length ≤ 300 := by
  refine ⟨rfl, ?_, ?_⟩
  · rw [List.all_eq_true]
    intro c hc
    have hc1 : c ∈ (text.toList.filter keepChar).take 300 := mem_of_mem_jsTrim hc
    have hc2 : c ∈ text.toList.filter keepChar := List.take_subset _ _ hc1
    exact List.of_mem_filter hc2
  · show (jsTrim ((text.toList.filter keepChar).take 300)).length ≤ 300
    calc (jsTrim ((text.toList.filter keepChar).take 300)).length
        ≤ ((text.toList.filter keepChar).take 300).length :=
          jsTrim_length_le _
      _ ≤ 300 := List.length_take_le _ _

/-! ### Pipeline bookkeeping lemmas -/

/-- The image-analysis node only writes `imageDescription`. -/
theorem analyzeImageNode_content (s : ModerationState) (o : ImgCapOutcome) :
    (analyzeImageNode s o).content = s.content := by
  unfold analyzeImageNode
  split
  · cases o <;> rfl
  · rfl

/-- The image-analysis node leaves `technicalAnalysis` untouched. -/
theorem analyzeImageNode_technicalAnalysis (s : ModerationState) (o : ImgCapOutcome) :
    (analyzeImageNode s o).technicalAnalysis = s.technicalAnalysis := by
  unfold analyzeImageNode
  split
  · cases o <;> rfl
  · rfl

/-- The image-analysis node leaves `generatedImageUrl` untouched. -/
theorem analyzeImageNode_generatedImageUrl (s : ModerationState) (o : ImgCapOutcome) :
    (analyzeImageNode s o).generatedImageUrl = s.generatedImageUrl := by
  unfold analyzeImageNode
  split
  · cases o <;> rfl
  · rfl

/-- With falsy text content the text-analysis node returns its input. -/
theorem analyzeTextNode_content_falsy (s : ModerationState) (o : TextCapOutcome)
    (h : strTruthy s.content = false) : analyzeTextNode s o = Except.ok s := by
  unfold analyzeTextNode
  rw [h]
  simp

/-- The decision merge rebuilds `technicalAnalysis` from scratch. -/
theorem makeDecisionMerge_technicalAnalysis (s : ModerationState) (p : DecParsed) :
    (makeDecisionMerge s p).technicalAnalysis = some
      { toxicity := some ((s.technicalAnalysis.bind fun ta => ta.toxicity).getD (mkRat 1 2))
        nsfw_text := some ((s.technicalAnalysis.bind fun ta => ta.nsfw_text).getD false)
        nsfw_image := some ((p.technicalAnalysis.getD ⟨false, false⟩).nsfw_image)
        violence := some ((p.technicalAnalysis.getD ⟨false, false⟩).violence)
        image_replaced_by_ai := none } := rfl

/-- The replacement-evaluation node only writes `shouldReplaceImage`. -/
theorem evaluateImageReplacementNode_fields (s : ModerationState) :
    (evaluateImageReplacementNode s).content = s.content ∧
    (evaluateImageReplacementNode s).technicalAnalysis = s.technicalAnalysis ∧
    (evaluateImageReplacementNode s).generatedImageUrl = s.generatedImageUrl ∧
    (evaluateImageReplacementNode s).decision = s.decision ∧
    (evaluateImageReplacementNode s).textAnalysis = s.textAnalysis := by
  unfold evaluateImageReplacementNode
  split
  · dsimp only
    split <;> exact ⟨rfl, rfl, rfl, rfl, rfl⟩
  · exact ⟨rfl, rfl, rfl, rfl, rfl⟩

/-- With falsy text content the generation node returns its input. -/
theorem generateImageNode_content_falsy (s : ModerationState) (o : GenCapOutcome)
    (h : strTruthy s.content = false) : generateImageNode s o = s := by
  unfold generateImageNode
  rw [h]
  simp

/-- Without a generated image the re-analysis node returns its input. -/
theorem reanalyzeGeneratedImageNode_no_url (s : ModerationState) (o : ReCapOutcome)
    (h : s.generatedImageUrl = none) : reanalyzeGeneratedImageNode s o = s := by
  unfold reanalyzeGeneratedImageNode
  rw [h]
  simp [strTruthy]

/-- The pipeline result once the two fallible nodes have been resolved. -/
theorem runPipeline_eq (init : ModerationState) (cap : CapBehavior) (s2 s3 : ModerationState)
    (ht : analyzeTextNode (analyzeImageNode init cap.imageAnalysis) cap.textAnalysis =
      Except.ok s2)
    (hd : makeDecisionNode s2 cap.decision = Except.ok s3) :
    runPipeline init cap = Except.ok
      (reanalyzeGeneratedImageNode
        (generateImageNode (evaluateImageReplacementNode s3) cap.imageGeneration)
        cap.reanalysis) := by
  unfold runPipeline
  rw [ht]
  dsimp only
  rw [hd]

/-- C2 (amended): parse failures and the image-analysis, generation and
re-analysis capability failures are contained inside their steps, but
the text-analysis and decision steps let two error paths escape — a
capability call that throws (the `invoke` outside the `try`), and a
response whose extracted JSON document is `null` (property access on
`parsed` throws after the guarded parse): the pipeline raises exactly
when the text-analysis capability exhibits one of these two behaviours
while text content is present, or the decision capability does. -/
theorem c2_pipeline_error_characterisation (init : ModerationState) (cap : CapBehavior) :
    runPipeline init cap = Except.error () ↔
      (strTruthy init.content = true ∧
        (cap.textAnalysis = TextCapOutcome.throwErr ∨
         cap.textAnalysis = TextCapOutcome.nullDoc)) ∨
      (cap.decision = DecCapOutcome.throwErr ∨
       cap.decision = DecCapOutcome.nullDoc) := by
  have hc := analyzeImageNode_content init cap.imageAnalysis
  unfold runPipeline
  cases hct : strTruthy init.content with
  | false =>
    rw [analyzeTextNode_content_falsy _ _ (by rw [hc]; exact hct)]
    cases hd : cap.decision <;> simp [makeDecisionNode]
  | true =>
    cases hta : cap.textAnalysis with
    | throwErr =>
      have htext : analyzeTextNode (analyzeImageNode init cap.imageAnalysis)
          TextCapOutcome.throwErr = Except.error () := by
        unfold analyzeTextNode
        rw [hc, hct]
        simp
      rw [htext]
      simp
    | nullDoc =>
      have htext : analyzeTextNode (analyzeImageNode init cap.imageAnalysis)
          TextCapOutcome.nullDoc = Except.error () := by
        unfold analyzeTextNode
        rw [hc, hct]
        simp
      rw [htext]
      simp
    | parseFail =>
      have htext : analyzeTextNode (analyzeImageNode init cap.imageAnalysis)
          TextCapOutcome.parseFail =
          Except.ok (analyzeTextMerge (analyzeImageNode init cap.imageAnalysis)
            textFallbackParsed) := by
        unfold analyzeTextNode
        rw [hc, hct]
        simp
      rw [htext]
      cases hd : cap.decision <;> simp [makeDecisionNode]
    | parsed p =>
      have htext : analyzeTextNode (analyzeImageNode init cap.imageAnalysis)
          (TextCapOutcome.parsed p) =
          Except.ok (analyzeTextMerge (analyzeImageNode init cap.imageAnalysis) p) := by
        unfold analyzeTextNode
        rw [hc, hct]
        simp
      rw [htext]
      cases hd : cap.decision <;> simp [makeDecisionNode]

/-- The initial state used in the C2 counterexample: a text-only
submission with content `"hello world"`. -/
def c2init : ModerationState :=
  initState { type := some "text", content := some "hello world", image_url := none }

/-- C2 counterexample: with text present, a text-analysis capability
throw escapes `analyzeTextNode`, and the pipeline as a whole raises
instead of producing a decision. -/
theorem c2_text_throw_escapes :
    analyzeTextNode c2init TextCapOutcome.throwErr = Except.error () ∧
    runPipeline c2init
        { imageAnalysis := .fail, textAnalysis := .throwErr, decision := .parseFail
          imageGeneration := .fail, reanalysis := .fail } = Except.error () :=
  ⟨rfl, rfl⟩

/-- C9 (amended): for every submission whose text content is absent (so
the text-analysis step never runs) and every completed run, the
toxicity of the final record returned by `runModeration` is 0.5 — the
decision step's `?? 0.5` fallback — not 0. -/
theorem c9_absent_text_toxicity_half (row : SubmissionRow) (cap : CapBehavior)
    (res : ModerationResult)
    (h1 : strTruthy (initState row).content = false)
    (h : runModeration row cap = Except.ok res) :
    res.technicalAnalysis.toxicity = some (mkRat 1 2) := by
  have hc1 : (analyzeImageNode (initState row) cap.imageAnalysis).content =
      (initState row).content := analyzeImageNode_content _ _
  have hta1 : (analyzeImageNode (initState row) cap.imageAnalysis).technicalAnalysis =
      none := by
    rw [analyzeImageNode_technicalAnalysis]
    rfl
  have hgen1 : (analyzeImageNode (initState row) cap.imageAnalysis).generatedImageUrl =
      none := by
    rw [analyzeImageNode_generatedImageUrl]
    rfl
  have hcf : strTruthy (analyzeImageNode (initState row) cap.imageAnalysis).content =
      false := by rw [hc1]; exact h1
  have htext : analyzeTextNode (analyzeImageNode (initState row) cap.imageAnalysis)
      cap.textAnalysis = Except.ok (analyzeImageNode (initState row) cap.imageAnalysis) :=
    analyzeTextNode_content_falsy _ _ hcf
  have tailEq : ∀ p : DecParsed,
      reanalyzeGeneratedImageNode
        (generateImageNode (evaluateImageReplacementNode
          (makeDecisionMerge (analyzeImageNode (initState row) cap.imageAnalysis) p))
          cap.imageGeneration) cap.reanalysis =
      evaluateImageReplacementNode
        (makeDecisionMerge (analyzeImageNode (initState row) cap.imageAnalysis) p) := by
    intro p
    obtain ⟨hec, heta, hegen, -, -⟩ := evaluateImageReplacementNode_fields
      (makeDecisionMerge (analyzeImageNode (initState row) cap.imageAnalysis) p)
    have hcf4 : strTruthy (evaluateImageReplacementNode
        (makeDecisionMerge (analyzeImageNode (initState row) cap.imageAnalysis) p)).content =
        false := by
      rw [hec]
      exact hcf
    have hg : generateImageNode (evaluateImageReplacementNode
        (makeDecisionMerge (analyzeImageNode (initState row) cap.imageAnalysis) p))
        cap.imageGeneration =
        evaluateImageReplacementNode
          (makeDecisionMerge (analyzeImageNode (initState row) cap.imageAnalysis) p) :=
      generateImageNode_content_falsy _ _ hcf4
    have hgen4 : (evaluateImageReplacementNode
        (makeDecisionMerge (analyzeImageNode (initState row) cap.imageAnalysis) p)).generatedImageUrl = none := by
      rw [hegen]
      show (makeDecisionMerge _ p).generatedImageUrl = none
      rw [show (makeDecisionMerge (analyzeImageNode (initState row) cap.imageAnalysis) p).generatedImageUrl =
        (analyzeImageNode (initState row) cap.imageAnalysis).generatedImageUrl from rfl]
      exact hgen1
    rw [hg]
    exact reanalyzeGeneratedImageNode_no_url _ _ hgen4
  have toxEq : ∀ p : DecParsed,
      (assembleResult (evaluateImageReplacementNode
        (makeDecisionMerge (analyzeImageNode (initState row) cap.imageAnalysis) p))).technicalAnalysis.toxicity =
      some (mkRat 1 2) := by
    intro p
    obtain ⟨-, heta, -, -, -⟩ := evaluateImageReplacementNode_fields
      (makeDecisionMerge (analyzeImageNode (initState row) cap.imageAnalysis) p)
    have hta4 : (evaluateImageReplacementNode
        (makeDecisionMerge (analyzeImageNode (initState row) cap.imageAnalysis) p)).technicalAnalysis =
        some { toxicity := some (mkRat 1 2), nsfw_text := some false
               nsfw_image := some ((p.technicalAnalysis.getD ⟨false, false⟩).nsfw_image)
               violence := some ((p.technicalAnalysis.getD ⟨false, false⟩).violence)
               image_replaced_by_ai := none } := by
      rw [heta, makeDecisionMerge_technicalAnalysis, hta1]
      rfl
    show ((evaluateImageReplacementNode
      (makeDecisionMerge (analyzeImageNode (initState row) cap.imageAnalysis) p)).technicalAnalysis.getD
        { toxicity := some 0, nsfw_text := some false, nsfw_image := some false
          violence := some false, image_replaced_by_ai := none }).toxicity = some (mkRat 1 2)
    rw [hta4]
    rfl
  unfold runModeration at h
  cases hp : runPipeline (initState row) cap with
  | error e =>
    rw [hp] at h
    simp [Except.map] at h
  | ok fs =>
    rw [hp] at h
    simp only [Except.map] at h
    cases h
    unfold runPipeline at hp
    rw [htext] at hp
    dsimp only at hp
    cases hd : cap.decision with
    | throwErr =>
      rw [hd] at hp
      simp [makeDecisionNode] at hp
    | nullDoc =>
      rw [hd] at hp
      simp [makeDecisionNode] at hp
    | parseFail =>
      rw [hd] at hp
      dsimp only [makeDecisionNode] at hp
      rw [tailEq decisionFallbackParsed] at hp
      cases hp
      exact toxEq decisionFallbackParsed
    | parsed p =>
      rw [hd] at hp
      dsimp only [makeDecisionNode] at hp
      rw [tailEq p] at hp
      cases hp
      exact toxEq p

/-- The row used for C9's concrete run: a submission without text. -/
def c9row : SubmissionRow := { type := some "image", content := none, image_url := none }

/-- The capability behaviour used for C9's concrete run. -/
def c9cap : CapBehavior :=
  { imageAnalysis := .fail, textAnalysis := .parseFail
    decision := .parsed { decision := some "approved", summary := some "Looks fine"
                          technicalAnalysis := some { nsfw_image := false, violence := false } }
    imageGeneration := .fail, reanalysis := .fail }

/-- C9 counterexample: a completed run of a text-less submission ends
with toxicity 0.5 in the returned record, not 0. -/
theorem c9_absent_text_not_zero :
    runModeration c9row c9cap = Except.ok
      { status := "approved", summary := "Looks fine"
        reasoning := "Content approved: Toxicity: 50.0%"
        technicalAnalysis := ⟨some (mkRat 1 2), some false, some false, some false, none⟩ } ∧
    some (mkRat 1 2) ≠ some (0 : ℚ) :=
  ⟨rfl, by decide⟩

/-- The record C9's concrete run returns. -/
def c9res : ModerationResult :=
  { status := "approved", summary := "Looks fine"
    reasoning := "Content approved: Toxicity: 50.0%"
    technicalAnalysis := ⟨some (mkRat 1 2), some false, some false, some false, none⟩ }

/-- C9 witness: the amended theorem applied at a concrete text-less
completed run. -/
theorem c9_absent_text_witness :
    strTruthy (initState c9row).content = false ∧
    runModeration c9row c9cap = Except.ok c9res ∧
    c9res.technicalAnalysis.toxicity = some (mkRat 1 2) :=
  ⟨by decide, rfl, c9_absent_text_toxicity_half c9row c9cap c9res (by decide) rfl⟩

/-- C1 (amended): the status returned by `runModeration` is always the
pipeline's final `decision` field (defaulting to `"approved"`), in
particular also when `image_replaced_by_ai = true`: no threshold-based
recomputation takes place. -/
theorem c1_status_is_base_decision (row : SubmissionRow) (cap : CapBehavior)
    (res : ModerationResult)
    (h : runModeration row cap = Except.ok res)
    (hrep : res.technicalAnalysis.image_replaced_by_ai = some true) :
    ∃ fs, runPipeline (initState row) cap = Except.ok fs ∧
      res.status = fs.decision.getD "approved" := by
  unfold runModeration at h
  cases hp : runPipeline (initState row) cap with
  | error e =>
    rw [hp] at h
    simp [Except.map] at h
  | ok fs =>
    rw [hp] at h
    simp only [Except.map] at h
    cases h
    exact ⟨fs, rfl, rfl⟩

/-- The row of C1's concrete run: text plus an unsafe original image. -/
def c1row : SubmissionRow :=
  { type := some "image", content := some "a day at the beach"
    image_url := some "https://img/orig.png" }

/-- The capability behaviour of C1's concrete run: mild text toxicity
0.2, base decision `"rejected"` with an NSFW image flag, successful
generation, and a clean re-analysis. -/
def c1cap : CapBehavior :=
  { imageAnalysis := .ok "a photo"
    textAnalysis := .parsed { toxicity := .num (mkRat 1 5), nsfw_text := false
                              summary := some "fine" }
    decision := .parsed { decision := some "rejected", summary := some "bad image"
                          technicalAnalysis := some { nsfw_image := true, violence := false } }
    imageGeneration := .ok "https://gen/new.png"
    reanalysis := .ok "a pleasant generated scene" }

/-- The record C1's concrete run returns. -/
def c1res : ModerationResult :=
  { status := "rejected", summary := "bad image"
    reasoning := "Content rejected: Toxicity: 20.0%"
    technicalAnalysis := ⟨some (mkRat 1 5), some false, some false, some false, some true⟩ }

/-- C1 counterexample: a run in which the image was replaced
(`image_replaced_by_ai = true`), toxicity is 0.2 < 0.3 and no issue
flag remains, yet `runModeration` returns the base decision
`"rejected"` instead of the recomputed `"approved"` the claim requires. -/
theorem c1_no_threshold_recomputation :
    runModeration c1row c1cap = Except.ok c1res ∧
    c1res.technicalAnalysis.image_replaced_by_ai = some true ∧
    c1res.technicalAnalysis.toxicity = some (mkRat 1 5) ∧ mkRat 1 5 < mkRat 3 10 ∧
    optTruthy c1res.technicalAnalysis.nsfw_text = false ∧
    optTruthy c1res.technicalAnalysis.nsfw_image = false ∧
    optTruthy c1res.technicalAnalysis.violence = false ∧
    c1res.status ≠ "approved" :=
  ⟨rfl, rfl, rfl, by decide, rfl, rfl, rfl, by decide⟩

/-- C1 witness: the amended theorem applied at the concrete
replacement run. -/
theorem c1_status_is_base_decision_witness :
    runModeration c1row c1cap = Except.ok c1res ∧
    c1res.technicalAnalysis.image_replaced_by_ai = some true ∧
    (∃ fs, runPipeline (initState c1row) c1cap = Except.ok fs ∧
      c1res.status = fs.decision.getD "approved") :=
  ⟨rfl, rfl, c1_status_is_base_decision c1row c1cap c1res rfl rfl⟩
